import Mathlib

/- Formal model of the double-buffered GPU simulation core of the
   webgpu-native-examples repository: the N-body simulation frame loop and
   resource setup (src/examples/n_body_simulation.c) and the Gerstner-waves
   parameter updates (src/examples/gerstner_waves.c).  Stateful C code is
   embedded as explicit state passing; machine floats are idealised as exact
   rationals or reals. -/

namespace NBodySim

/-- The three storage buffers of the N-body simulation state store. -/
inductive Buffer
  | positions_in
  | positions_out
  | velocities
deriving DecidableEq

/-- The three buffer bindings of one compute bind group
(setup_compute_bind_group). -/
structure BindGroupEntries where
  binding0 : Buffer
  binding1 : Buffer
  binding2 : Buffer
deriving DecidableEq

/-- Model of bind_groups.compute, built once in setup_compute_bind_group:
group 0 binds positions_in at binding 0 (input positions) and positions_out
at binding 1 (output positions); group 1 swaps the two roles.  The
velocities buffer sits at binding 2 in both groups. -/
def bind_groups_compute (i : ℕ) : BindGroupEntries :=
  if i = 0 then
    { binding0 := Buffer.positions_in,
      binding1 := Buffer.positions_out,
      binding2 := Buffer.velocities }
  else
    { binding0 := Buffer.positions_out,
      binding1 := Buffer.positions_in,
      binding2 := Buffer.velocities }

/-- NUM_BODIES. -/
def num_bodies : ℕ := 8192

/-- WORKGROUP_SIZE. -/
def workgroup_size : ℕ := 64

/-- Workgroup count of the compute dispatch, from
ceil(num_bodies / (float)workgroup_size) in build_command_buffer, modelled
in exact arithmetic. -/
def dispatchCount (n ws : ℕ) : ℕ := (⌈(n : ℚ) / (ws : ℚ)⌉).toNat

/-- What one execution of build_command_buffer records: the bind group index
used by the compute dispatch (none when the pass is skipped), the dispatched
workgroup count, and the vertex buffer bound for the render pass. -/
structure FrameRecord where
  dispatched : Option ℕ
  dispatch_x : Option ℕ
  rendered : Buffer
deriving DecidableEq

/-- One frame of build_command_buffer: when not paused the compute pass sets
bind_groups.compute[frame_idx], dispatches ceil(num_bodies/workgroup_size)
workgroups, and then frame_idx becomes (frame_idx + 1) % 2; the render pass
always executes afterwards and binds positions_in as the vertex buffer when
frame_idx == 0 and positions_out otherwise.  Returns the frame record and
the new frame_idx. -/
def build_command_buffer (paused : Bool) (frame_idx : ℕ) : FrameRecord × ℕ :=
  if paused then
    ({ dispatched := none, dispatch_x := none,
       rendered := if frame_idx = 0 then Buffer.positions_in
                   else Buffer.positions_out }, frame_idx)
  else
    let frame_idx' := (frame_idx + 1) % 2
    ({ dispatched := some frame_idx,
       dispatch_x := some (dispatchCount num_bodies workgroup_size),
       rendered := if frame_idx' = 0 then Buffer.positions_in
                   else Buffer.positions_out }, frame_idx')

/-- frame_idx at the start of frame t, over a schedule of pause flags
(static uint32_t frame_idx = 0). -/
def frameIdx (paused : ℕ → Bool) : ℕ → ℕ
  | 0 => 0
  | t + 1 => (build_command_buffer (paused t) (frameIdx paused t)).2

/-- The record of frame t. -/
def frame (paused : ℕ → Bool) (t : ℕ) : FrameRecord :=
  (build_command_buffer (paused t) (frameIdx paused t)).1

/-- Bind group index of the most recent compute dispatch among frames
0..t, if any dispatch has run at all. -/
def lastDispatchGroup (paused : ℕ → Bool) : ℕ → Option ℕ
  | 0 => (frame paused 0).dispatched
  | t + 1 =>
    match (frame paused (t + 1)).dispatched with
    | some i => some i
    | none => lastDispatchGroup paused t

/-- View-parameter state of the N-body example: the z component of the eye
position (the only component the key handler mutates) together with the
render_params.changed dirty flag. -/
structure RenderParams where
  eye_z : ℚ
  changed : Bool
deriving DecidableEq

/-- Key codes distinguished by example_on_key_pressed. -/
inductive Key
  | key_up
  | key_down
  | other
deriving DecidableEq

/-- update_uniform_buffers: recomputes the view-projection matrix from the
eye position, writes it to uniform_buffers.render_params, and clears the
changed flag. -/
def update_uniform_buffers (p : RenderParams) : RenderParams :=
  { p with changed := false }

/-- example_on_key_pressed: KEY_UP and KEY_DOWN move the eye by z_inc =
0.025 and set render_params.changed; any other key leaves the state
untouched. -/
def example_on_key_pressed (key : Key) (p : RenderParams) : RenderParams :=
  if key = Key.key_up ∨ key = Key.key_down then
    let p1 :=
      if key = Key.key_up then { p with eye_z := p.eye_z + 0.025 }
      else { p with eye_z := p.eye_z - 0.025 }
    { p1 with changed := true }
  else p

/-- One steady-state frame of example_render for the render-parameter state:
key input delivered before the frame's check is folded in, the draw happens
(no uniform write), and then the uniform buffer is re-uploaded exactly when
render_params.changed is set.  The Bool records whether the view-projection
uniform buffer was written this frame. -/
def example_render (key : Key) (p : RenderParams) : RenderParams × Bool :=
  let p1 := example_on_key_pressed key p
  if p1.changed then (update_uniform_buffers p1, true) else (p1, false)

/-- Initialisation: render_params starts with changed = true and eye
position (0, 0, -1.5); prepare_uniform_buffers immediately calls
update_uniform_buffers, which uploads once and clears the flag. -/
def render_params_init : RenderParams :=
  update_uniform_buffers { eye_z := -1.5, changed := true }

/-- Render-parameter state at the start of frame t, for a schedule of key
events. -/
def renderLoop (keys : ℕ → Key) : ℕ → RenderParams
  | 0 => render_params_init
  | t + 1 => (example_render (keys t) (renderLoop keys t)).1

/-- Whether frame t wrote the view-projection uniform buffer. -/
def frameWrote (keys : ℕ → Key) (t : ℕ) : Bool :=
  (example_render (keys t) (renderLoop keys t)).2

/-- float_random(min, max): min + scale * (max - min), where scale =
rand() / RAND_MAX lies in [0, 1].  The scale value is passed explicitly. -/
noncomputable def float_random (mn mx scale : ℝ) : ℝ := mn + scale * (mx - mn)

/-- One body position produced by init_bodies (x, y, z, w components). -/
structure BodyPos where
  x : ℝ
  y : ℝ
  z : ℝ
  w : ℝ

/-- Body i generated by init_bodies: longitude = 2 pi * float_random(0,1),
latitude = acos(2 * float_random(0,1) - 1), position = radius *
(sin lat cos long, sin lat sin long, cos lat) with w = 1, radius = 0.6.
Body i consumes random draws u (2i) and u (2i+1), in that order. -/
noncomputable def init_body (u : ℕ → ℝ) (i : ℕ) : BodyPos :=
  let radius : ℝ := 0.6
  let longitude := 2 * Real.pi * float_random 0 1 (u (2 * i))
  let latitude := Real.arccos (2 * float_random 0 1 (u (2 * i + 1)) - 1)
  { x := radius * Real.sin latitude * Real.cos longitude,
    y := radius * Real.sin latitude * Real.sin longitude,
    z := radius * Real.cos latitude,
    w := 1 }

/-- The host-side staging array filled by init_bodies for a given body
count: one position per loop iteration i = 0 .. count-1. -/
noncomputable def init_bodies (count : ℕ) (u : ℕ → ℝ) : List BodyPos :=
  (List.range count).map (init_body u)

end NBodySim

namespace GerstnerWaves

/-- One wave descriptor of gerstner_wave_params.waves. -/
structure Wave where
  wave_length : ℝ
  amplitude : ℝ
  steepness : ℝ
  direction : ℝ × ℝ

/-- The module state touched by update_uniform_buffers_gerstner_waves: the
five wave descriptors, the amplitude_sum accumulator, and the
gerstner_waves_normalized flag. -/
structure GerstnerParams where
  waves : Fin 5 → Wave
  amplitude_sum : ℝ
  normalized : Bool

/-- The five statically initialised wave descriptors of
gerstner_wave_params. -/
noncomputable def initial_waves : Fin 5 → Wave :=
  ![{ wave_length := 8, amplitude := 0.1, steepness := 1,
      direction := (1, 1.3) },
    { wave_length := 4, amplitude := 0.1, steepness := 0.8,
      direction := (-0.7, 0) },
    { wave_length := 5, amplitude := 0.2, steepness := 1,
      direction := (0.3, 0.2) },
    { wave_length := 10, amplitude := 0.5, steepness := 1,
      direction := (4.3, 1.2) },
    { wave_length := 3, amplitude := 0.1, steepness := 1,
      direction := (0.5, 0.5) }]

/-- Initial module state: amplitude_sum is zero-initialised and
gerstner_waves_normalized starts false. -/
noncomputable def initial_params : GerstnerParams :=
  { waves := initial_waves, amplitude_sum := 0, normalized := false }

/-- glm_vec2_normalize: divides the vector by its Euclidean norm, and
zeroes it when the norm is zero. -/
noncomputable def glm_vec2_normalize (v : ℝ × ℝ) : ℝ × ℝ :=
  let norm := Real.sqrt (v.1 * v.1 + v.2 * v.2)
  if norm = 0 then (0, 0) else (v.1 / norm, v.2 / norm)

/-- Euclidean magnitude of a 2-vector. -/
noncomputable def mag (v : ℝ × ℝ) : ℝ := Real.sqrt (v.1 * v.1 + v.2 * v.2)

/-- update_uniform_buffers_gerstner_waves: when the normalized flag is still
clear, every wave direction is normalised in place and the flag is set;
then (on every call) the loop amplitude_sum += waves[i].amplitude adds the
sum of the five amplitudes to the accumulator; finally the whole parameter
block is written to its uniform buffer. -/
noncomputable def update_uniform_buffers_gerstner_waves
    (s : GerstnerParams) : GerstnerParams :=
  let s1 :=
    if s.normalized then s
    else
      { s with
        waves := fun i =>
          { s.waves i with
            direction := glm_vec2_normalize (s.waves i).direction },
        normalized := true }
  { s1 with
    amplitude_sum := s1.amplitude_sum + ∑ i, (s1.waves i).amplitude }

/-- A 4x4 float matrix. -/
abbrev Mat4 := Fin 4 → Fin 4 → ℝ

/-- A 3-component vector. -/
abbrev Vec3 := ℝ × ℝ × ℝ

/-- Quaternion (versor), components 0..3. -/
abbrev Quat := Fin 4 → ℝ

/-- The cglm matrix primitives used by the scene update.  They belong to the
external math library (an out-of-scope collaborator of the spec), so the
scene-update contract is proved for every interpretation of them. -/
structure CglmOps where
  quat_mat4 : Quat → Mat4
  translate : Mat4 → Vec3 → Mat4
  mat4_inv : Mat4 → Mat4
  perspective : ℝ → ℝ → ℝ → ℝ → Mat4
  mat4_mul : Mat4 → Mat4 → Mat4

/-- from_euler: quaternion from euler angles in degrees (gerstner_waves.c). -/
noncomputable def from_euler (x y z : ℝ) : Quat :=
  let halfToRad := (0.5 * Real.pi) / 180
  let x := x * halfToRad
  let y := y * halfToRad
  let z := z * halfToRad
  let sx := Real.sin x
  let cx := Real.cos x
  let sy := Real.sin y
  let cy := Real.cos y
  let sz := Real.sin z
  let cz := Real.cos z
  ![sx * cy * cz - cx * sy * sz,
    cx * sy * cz + sx * cy * sz,
    cx * cy * sz - sx * sy * cz,
    cx * cy * cz + sx * sy * sz]

/-- create_orbit_view_matrix: inv(R*T) for rotation R and a translation by
(0, 0, radius). -/
def create_orbit_view_matrix (g : CglmOps) (radius : ℝ) (rotation : Quat) :
    Mat4 :=
  g.mat4_inv (g.translate (g.quat_mat4 rotation) (0, 0, radius))

/-- position_from_view_matrix: translation column of the inverted view
matrix. -/
def position_from_view_matrix (g : CglmOps) (view_matrix : Mat4) : Vec3 :=
  let inv_view := g.mat4_inv view_matrix
  (inv_view 3 0, inv_view 3 1, inv_view 3 2)

/-- glm_rad: degrees to radians. -/
noncomputable def glm_rad (deg : ℝ) : ℝ := deg * (Real.pi / 180)

/-- The scene_data uniform block: elapsed time, model matrix (set once at
initialisation), view-projection matrix and view position. -/
structure SceneData where
  elapsed_time : ℝ
  model_matrix : Mat4
  view_projection_matrix : Mat4
  view_position : Vec3

/-- update_uniform_buffers_scene: the elapsed-time clock advances to
run_time - start_time only when the example is not paused; the orbit
rotation, view matrix, view position, projection matrix (fovy 50 degrees,
near 0.1, far 100) and view-projection matrix are recomputed on every call
from the current mouse position and surface size; the whole scene_data
block is then written to its uniform buffer.  Returns the new state and the
uploaded block. -/
noncomputable def update_uniform_buffers_scene (g : CglmOps) (paused : Bool)
    (run_time start_time : ℝ) (mouse : ℝ × ℝ) (surface_w surface_h : ℝ)
    (s : SceneData) : SceneData × SceneData :=
  let elapsed :=
    if !paused then run_time - start_time else s.elapsed_time
  let rotation := from_euler mouse.2 mouse.1 0
  let view_matrix := create_orbit_view_matrix g 15 rotation
  let view_pos := position_from_view_matrix g view_matrix
  let proj := g.perspective (glm_rad 50) (surface_w / surface_h) 0.1 100
  let vp := g.mat4_mul proj view_matrix
  let s1 :=
    { s with
      elapsed_time := elapsed,
      view_projection_matrix := vp,
      view_position := view_pos }
  (s1, s1)

/-- scene_data at the start of frame t, for schedules of per-frame run
times, mouse positions and pause flags (each frame of example_render calls
update_uniform_buffers_scene once). -/
noncomputable def sceneFrames (g : CglmOps) (run_times : ℕ → ℝ)
    (mouses : ℕ → ℝ × ℝ) (pauseds : ℕ → Bool) (start_time : ℝ)
    (surface_w surface_h : ℝ) (s0 : SceneData) : ℕ → SceneData
  | 0 => s0
  | t + 1 =>
    (update_uniform_buffers_scene g (pauseds t) (run_times t) start_time
      (mouses t) surface_w surface_h
      (sceneFrames g run_times mouses pauseds start_time surface_w surface_h
        s0 t)).1

/-- The scene_data block uploaded during frame t. -/
noncomputable def sceneUpload (g : CglmOps) (run_times : ℕ → ℝ)
    (mouses : ℕ → ℝ × ℝ) (pauseds : ℕ → Bool) (start_time : ℝ)
    (surface_w surface_h : ℝ) (s0 : SceneData) (t : ℕ) : SceneData :=
  (update_uniform_buffers_scene g (pauseds t) (run_times t) start_time
    (mouses t) surface_w surface_h
    (sceneFrames g run_times mouses pauseds start_time surface_w surface_h
      s0 t)).2

end GerstnerWaves

namespace NBodySim

lemma frameIdx_succ (paused : ℕ → Bool) (t : ℕ) :
    frameIdx paused (t + 1) =
      if paused t then frameIdx paused t
      else (frameIdx paused t + 1) % 2 := by
  cases h : paused t <;> simp [frameIdx, build_command_buffer, h]

lemma frameIdx_lt_two (paused : ℕ → Bool) (t : ℕ) : frameIdx paused t < 2 := by
  induction t with
  | zero => simp [frameIdx]
  | succ t ih =>
    rw [frameIdx_succ]
    split
    · exact ih
    · exact Nat.mod_lt _ (by norm_num)

lemma frame_dispatched (paused : ℕ → Bool) (t : ℕ) :
    (frame paused t).dispatched =
      if paused t then none else some (frameIdx paused t) := by
  cases h : paused t <;> simp [frame, build_command_buffer, h]

lemma frame_rendered (paused : ℕ → Bool) (t : ℕ) :
    (frame paused t).rendered =
      if frameIdx paused (t + 1) = 0 then Buffer.positions_in
      else Buffer.positions_out := by
  rw [frameIdx_succ]
  cases h : paused t <;> simp [frame, build_command_buffer, h]

/-- Claim C1: in the N-body frame loop the render pass always executes and
selects its vertex buffer by the post-dispatch frame_idx (positions_in when
frame_idx == 0, else positions_out); consequently the rendered buffer is
the destination (output binding) of the most recent compute dispatch, or
positions_in, the seed buffer, if no dispatch has ever run. -/
theorem render_reads_latest_dispatch_destination (paused : ℕ → Bool)
    (t : ℕ) :
    (frame paused t).rendered =
      (match lastDispatchGroup paused t with
       | none => Buffer.positions_in
       | some i => (bind_groups_compute i).binding1) ∧
    (frame paused t).rendered =
      (if frameIdx paused (t + 1) = 0 then Buffer.positions_in
       else Buffer.positions_out) := by
  refine ⟨?_, frame_rendered paused t⟩
  induction t with
  | zero =>
    rw [frame_rendered, frameIdx_succ]
    simp only [lastDispatchGroup, frame_dispatched]
    cases h : paused 0 <;>
      simp [h, frameIdx, bind_groups_compute]
  | succ t ih =>
    cases h : paused (t + 1) with
    | true =>
      have hlast : lastDispatchGroup paused (t + 1) =
          lastDispatchGroup paused t := by
        simp [lastDispatchGroup, frame_dispatched, h]
      have hidx : frameIdx paused (t + 2) = frameIdx paused (t + 1) := by
        rw [frameIdx_succ, h]; simp
      rw [frame_rendered, hidx, hlast, ← frame_rendered]
      exact ih
    | false =>
      have hlast : lastDispatchGroup paused (t + 1) =
          some (frameIdx paused (t + 1)) := by
        simp [lastDispatchGroup, frame_dispatched, h]
      rw [frame_rendered, frameIdx_succ, h, hlast]
      have hi : frameIdx paused (t + 1) = 0 ∨ frameIdx paused (t + 1) = 1 := by
        have := frameIdx_lt_two paused (t + 1)
        omega
      rcases hi with hi | hi <;> rw [hi] <;> norm_num [bind_groups_compute]

/-- Claim C2: for every frame sequence with no paused frames, starting from
frame_idx = 0, frame_idx alternates strictly 0,1,0,1,..., each frame t
dispatches with bind group t % 2, and the buffer bound as the compute
input (binding 0 of the group selected in frame t+1) is the buffer that
was bound as the output (binding 1) of the group selected in frame t. -/
theorem ping_pong_alternation (paused : ℕ → Bool)
    (h : ∀ s, paused s = false) (t : ℕ) :
    frameIdx paused t = t % 2 ∧
    (frame paused t).dispatched = some (t % 2) ∧
    (bind_groups_compute (frameIdx paused (t + 1))).binding0 =
      (bind_groups_compute (frameIdx paused t)).binding1 := by
  have hidx : ∀ s, frameIdx paused s = s % 2 := by
    intro s
    induction s with
    | zero => simp [frameIdx]
    | succ s ih =>
      rw [frameIdx_succ, h s]
      simp only [Bool.false_eq_true, if_false]
      rw [ih]
      omega
  refine ⟨hidx t, ?_, ?_⟩
  · rw [frame_dispatched, h t, hidx t]
    simp
  · rw [hidx t, hidx (t + 1)]
    rcases Nat.mod_two_eq_zero_or_one t with h2 | h2
    · have h3 : (t + 1) % 2 = 1 := by omega
      rw [h2, h3]
      norm_num [bind_groups_compute]
    · have h3 : (t + 1) % 2 = 0 := by omega
      rw [h2, h3]
      norm_num [bind_groups_compute]

/-- Witness for claim C2 at the all-unpaused schedule and frame 3. -/
theorem ping_pong_alternation_witness :
    (∀ s : ℕ, (fun _ : ℕ => false) s = false) ∧
    (frameIdx (fun _ => false) 3 = 3 % 2 ∧
     (frame (fun _ => false) 3).dispatched = some (3 % 2) ∧
     (bind_groups_compute (frameIdx (fun _ => false) (3 + 1))).binding0 =
       (bind_groups_compute (frameIdx (fun _ => false) 3)).binding1) :=
  ⟨fun _ => rfl, ping_pong_alternation (fun _ => false) (fun _ => rfl) 3⟩

/-- Claim C3: if the simulation is paused for k consecutive frames
t, ..., t+k-1, then none of those frames records a compute dispatch,
frame_idx is not flipped in any of them, and the rendered vertex-buffer
selection is identical across all k frames; moreover frame_idx changes
from one frame to the next only when that frame's compute pass actually
ran. -/
theorem pause_freezes_simulation (paused : ℕ → Bool) (t k : ℕ)
    (h : ∀ j, j < k → paused (t + j) = true) :
    (∀ j, j < k →
      (frame paused (t + j)).dispatched = none ∧
      frameIdx paused (t + j + 1) = frameIdx paused (t + j) ∧
      (frame paused (t + j)).rendered = (frame paused t).rendered) ∧
    (∀ s, frameIdx paused (s + 1) ≠ frameIdx paused s →
      (frame paused s).dispatched ≠ none) := by
  have hconst : ∀ j, j ≤ k → frameIdx paused (t + j) = frameIdx paused t := by
    intro j hj
    induction j with
    | zero => rfl
    | succ j ih =>
      rw [show t + (j + 1) = t + j + 1 from rfl, frameIdx_succ,
        h j (by omega)]
      simp only [if_true]
      exact ih (by omega)
  constructor
  · intro j hj
    refine ⟨?_, ?_, ?_⟩
    · rw [frame_dispatched, h j hj]
      simp
    · rw [frameIdx_succ, h j hj]
      simp
    · rw [frame_rendered, frame_rendered,
        show t + j + 1 = t + (j + 1) from rfl,
        hconst (j + 1) (by omega), ← hconst 1 (by omega)]
  · intro s hne
    rw [frame_dispatched]
    by_cases hp : paused s
    · exfalso
      apply hne
      rw [frameIdx_succ, hp]
      simp
    · simp [hp]

/-- Witness for claim C3 at the all-paused schedule, frames 0 and 1. -/
theorem pause_freezes_simulation_witness :
    (∀ j, j < 2 → (fun _ : ℕ => true) (0 + j) = true) ∧
    ((∀ j, j < 2 →
      (frame (fun _ => true) (0 + j)).dispatched = none ∧
      frameIdx (fun _ => true) (0 + j + 1) =
        frameIdx (fun _ => true) (0 + j) ∧
      (frame (fun _ => true) (0 + j)).rendered =
        (frame (fun _ => true) 0).rendered) ∧
     (∀ s, frameIdx (fun _ => true) (s + 1) ≠ frameIdx (fun _ => true) s →
       (frame (fun _ => true) s).dispatched ≠ none)) :=
  ⟨fun _ _ => rfl, pause_freezes_simulation (fun _ => true) 0 2 (fun _ _ => rfl)⟩

/-- Claim C4: for every dispatch issued by the N-body compute pass, the
selected bind group is one of the two groups built at setup (its index is
below 2), and in both groups the buffer at the input binding 0 is distinct
from the buffer at the output binding 1; the frame loop never builds a new
bind group. -/
theorem dispatch_io_buffers_distinct (paused : ℕ → Bool) (t : ℕ) :
    (∀ j, j < 2 →
      (bind_groups_compute j).binding0 ≠ (bind_groups_compute j).binding1) ∧
    (∀ i, (frame paused t).dispatched = some i →
      i < 2 ∧
      (bind_groups_compute i).binding0 ≠ (bind_groups_compute i).binding1) := by
  constructor
  · intro j hj
    interval_cases j <;> decide
  · intro i hi
    rw [frame_dispatched] at hi
    by_cases hp : paused t
    · simp [hp] at hi
    · simp only [hp, Bool.false_eq_true, if_false, Option.some_inj] at hi
      have hlt : i < 2 := hi ▸ frameIdx_lt_two paused t
      refine ⟨hlt, ?_⟩
      interval_cases i <;> decide

/-- Witness for claim C4: the bind group of the very first dispatch. -/
theorem dispatch_io_buffers_distinct_witness :
    ((bind_groups_compute 0).binding0 ≠ (bind_groups_compute 0).binding1) ∧
    (0 < 2 ∧
     (bind_groups_compute 0).binding0 ≠ (bind_groups_compute 0).binding1) :=
  ⟨(dispatch_io_buffers_distinct (fun _ => false) 0).1 0 (by decide),
   (dispatch_io_buffers_distinct (fun _ => false) 0).2 0 (by decide)⟩

lemma dispatchCount_eq (n ws : ℕ) (hws : 0 < ws) :
    dispatchCount n ws = (n + ws - 1) / ws := by
  unfold dispatchCount
  have hdm : ws * ((n + ws - 1) / ws) + (n + ws - 1) % ws = n + ws - 1 :=
    Nat.div_add_mod _ _
  have hr : (n + ws - 1) % ws < ws := Nat.mod_lt _ hws
  have h1 : n ≤ ws * ((n + ws - 1) / ws) := by omega
  have h2 : ws * ((n + ws - 1) / ws) < n + ws := by omega
  have hcast : (0 : ℚ) < (ws : ℚ) := by exact_mod_cast hws
  have hceil : ⌈(n : ℚ) / (ws : ℚ)⌉ = (((n + ws - 1) / ws : ℕ) : ℤ) := by
    have hle : ⌈(n : ℚ) / (ws : ℚ)⌉ ≤ (((n + ws - 1) / ws : ℕ) : ℤ) := by
      rw [Int.ceil_le, Int.cast_natCast, div_le_iff₀ hcast, mul_comm]
      exact_mod_cast h1
    have hgt : ((((n + ws - 1) / ws : ℕ) : ℤ) - 1) <
        ⌈(n : ℚ) / (ws : ℚ)⌉ := by
      rw [Int.lt_ceil, Int.cast_sub, Int.cast_natCast, Int.cast_one,
        lt_div_iff₀ hcast]
      have h2' : (ws : ℚ) * (((n + ws - 1) / ws : ℕ) : ℚ) <
          (n : ℚ) + (ws : ℚ) := by
        exact_mod_cast h2
      nlinarith
    omega
  rw [hceil, Int.toNat_natCast]

/-- Claim C5: the compute dispatch count equals
ceil(body_count / workgroup_size): it matches the rounding-up integer
formula, never shrinks below the body count, and evaluates to 128 at
body_count = 8192 and to 129 at body_count = 8193 with workgroup_size 64. -/
theorem dispatch_count_rounds_up (n ws : ℕ) (hws : 0 < ws) :
    dispatchCount n ws = (n + ws - 1) / ws ∧
    n ≤ ws * dispatchCount n ws ∧
    dispatchCount 8192 64 = 128 ∧
    dispatchCount 8193 64 = 129 := by
  refine ⟨dispatchCount_eq n ws hws, ?_, ?_, ?_⟩
  · rw [dispatchCount_eq n ws hws]
    have hdm := Nat.div_add_mod (n + ws - 1) ws
    have hr : (n + ws - 1) % ws < ws := Nat.mod_lt _ hws
    omega
  · rw [dispatchCount_eq 8192 64 (by norm_num)]
  · rw [dispatchCount_eq 8193 64 (by norm_num)]

/-- Witness for claim C5 at body_count = 8193, workgroup_size = 64. -/
theorem dispatch_count_rounds_up_witness :
    0 < 64 ∧
    (dispatchCount 8193 64 = (8193 + 64 - 1) / 64 ∧
     8193 ≤ 64 * dispatchCount 8193 64 ∧
     dispatchCount 8192 64 = 128 ∧
     dispatchCount 8193 64 = 129) :=
  ⟨by norm_num, dispatch_count_rounds_up 8193 64 (by norm_num)⟩

lemma example_on_key_pressed_changed (k : Key) (p : RenderParams) :
    (example_on_key_pressed k p).changed =
      if k = Key.key_up ∨ k = Key.key_down then true else p.changed := by
  unfold example_on_key_pressed
  split
  · simp
  · rfl

lemma renderLoop_changed_false (keys : ℕ → Key) (t : ℕ) :
    (renderLoop keys t).changed = false := by
  induction t with
  | zero => rfl
  | succ t ih =>
    by_cases hc : (example_on_key_pressed (keys t) (renderLoop keys t)).changed
    · simp [renderLoop, example_render, hc, update_uniform_buffers]
    · simp only [renderLoop, example_render]
      rw [if_neg hc]
      simpa using hc

/-- Claim C9: in steady-state frames of the N-body render loop, the
changed flag is always clear at the start of a frame; the view-projection
uniform buffer is written during a frame exactly when the changed flag is
set at the post-draw check, which in steady state happens exactly when an
eye-position key event (KEY_UP or KEY_DOWN) arrived that frame; frames
whose flag is clear perform no uniform write, and the flag is cleared by
the upload. -/
theorem uniform_upload_gated_by_changed (keys : ℕ → Key) (t : ℕ) :
    (renderLoop keys t).changed = false ∧
    (frameWrote keys t = true ↔
      (example_on_key_pressed (keys t) (renderLoop keys t)).changed = true) ∧
    (frameWrote keys t = true ↔
      (keys t = Key.key_up ∨ keys t = Key.key_down)) := by
  have hwrote : frameWrote keys t = true ↔
      (example_on_key_pressed (keys t) (renderLoop keys t)).changed = true := by
    by_cases hc : (example_on_key_pressed (keys t) (renderLoop keys t)).changed
    · simp [frameWrote, example_render, hc]
    · simp only [frameWrote, example_render]
      rw [if_neg hc]
      simpa using hc
  refine ⟨renderLoop_changed_false keys t, hwrote, ?_⟩
  rw [hwrote, example_on_key_pressed_changed]
  by_cases hk : keys t = Key.key_up ∨ keys t = Key.key_down
  · simp [hk]
  · simp only [hk, if_false]
    rw [renderLoop_changed_false keys t]
    simp [hk]

/-- Claim C8: init_bodies fills count points; each lies exactly on the
sphere of radius 0.6 (so in particular within floating-point tolerance of
it), with w component exactly 1; this holds for every random draw
sequence. -/
theorem seed_initial_state_on_sphere (count : ℕ) (_hc : 0 < count)
    (u : ℕ → ℝ) :
    (init_bodies count u).length = count ∧
    ∀ p ∈ init_bodies count u,
      Real.sqrt (p.x * p.x + p.y * p.y + p.z * p.z) = 0.6 ∧ p.w = 1 := by
  constructor
  · simp [init_bodies]
  · intro p hp
    simp only [init_bodies, List.mem_map, List.mem_range] at hp
    obtain ⟨i, _, rfl⟩ := hp
    simp only [init_body, float_random]
    set long := 2 * Real.pi * (0 + u (2 * i) * (1 - 0)) with hlong
    set lat := Real.arccos (2 * (0 + u (2 * i + 1) * (1 - 0)) - 1) with hlat
    constructor
    · have h1 := Real.sin_sq_add_cos_sq long
      have h2 := Real.sin_sq_add_cos_sq lat
      have hsq :
          0.6 * Real.sin lat * Real.cos long *
            (0.6 * Real.sin lat * Real.cos long) +
          0.6 * Real.sin lat * Real.sin long *
            (0.6 * Real.sin lat * Real.sin long) +
          0.6 * Real.cos lat * (0.6 * Real.cos lat)
          = (0.6 : ℝ) ^ 2 := by
        linear_combination ((0.6 : ℝ) ^ 2 * Real.sin lat ^ 2) * h1 +
          (0.6 : ℝ) ^ 2 * h2
      rw [hsq, Real.sqrt_sq (by norm_num : (0 : ℝ) ≤ 0.6)]
    · trivial

/-- Witness for claim C8 with a single body and the constant-zero random
sequence. -/
theorem seed_initial_state_on_sphere_witness :
    0 < 1 ∧
    ((init_bodies 1 (fun _ => 0)).length = 1 ∧
     ∀ p ∈ init_bodies 1 (fun _ => 0),
       Real.sqrt (p.x * p.x + p.y * p.y + p.z * p.z) = 0.6 ∧ p.w = 1) :=
  ⟨by norm_num, seed_initial_state_on_sphere 1 (by norm_num) (fun _ => 0)⟩

end NBodySim

namespace GerstnerWaves

lemma update_amplitude_sum (s : GerstnerParams) :
    (update_uniform_buffers_gerstner_waves s).amplitude_sum =
      s.amplitude_sum + ∑ i, (s.waves i).amplitude := by
  unfold update_uniform_buffers_gerstner_waves
  by_cases h : s.normalized <;> simp [h]

lemma sum_initial_amplitudes : ∑ i, (initial_waves i).amplitude = 1 := by
  rw [Fin.sum_univ_five]
  simp [initial_waves]
  norm_num

lemma update_normalized (s : GerstnerParams) :
    (update_uniform_buffers_gerstner_waves s).normalized = true := by
  unfold update_uniform_buffers_gerstner_waves
  by_cases h : s.normalized <;> simp [h]

lemma update_waves_of_normalized (s : GerstnerParams)
    (h : s.normalized = true) :
    (update_uniform_buffers_gerstner_waves s).waves = s.waves := by
  unfold update_uniform_buffers_gerstner_waves
  simp [h]

lemma update_waves_amplitude (s : GerstnerParams) (i : Fin 5) :
    ((update_uniform_buffers_gerstner_waves s).waves i).amplitude =
      (s.waves i).amplitude := by
  unfold update_uniform_buffers_gerstner_waves
  by_cases h : s.normalized <;> simp [h]

/-- Claim C6 evidence: update_uniform_buffers_gerstner_waves re-accumulates
the amplitude sum on every call, not only on the first one: after the
first call amplitude_sum is 1 (the sum of the five amplitudes), but a
second call raises it to 2 instead of leaving it unchanged. -/
theorem amplitude_sum_reaccumulated_per_call :
    (update_uniform_buffers_gerstner_waves initial_params).amplitude_sum
      = 1 ∧
    (update_uniform_buffers_gerstner_waves
        (update_uniform_buffers_gerstner_waves
          initial_params)).amplitude_sum = 2 := by
  have hs1 :
      (update_uniform_buffers_gerstner_waves initial_params).amplitude_sum
        = 1 := by
    rw [update_amplitude_sum]
    have h0 : initial_params.amplitude_sum = 0 := rfl
    have hw : ∀ i, (initial_params.waves i).amplitude =
        (initial_waves i).amplitude := fun _ => rfl
    rw [h0]
    simp only [hw]
    rw [sum_initial_amplitudes]
    norm_num
  refine ⟨hs1, ?_⟩
  rw [update_amplitude_sum, hs1]
  have hsum : ∑ i,
      ((update_uniform_buffers_gerstner_waves initial_params).waves i).amplitude
        = 1 := by
    have hw : ∀ i,
        ((update_uniform_buffers_gerstner_waves initial_params).waves
          i).amplitude = (initial_waves i).amplitude := by
      intro i
      rw [update_waves_amplitude]
      rfl
    simp only [hw]
    exact sum_initial_amplitudes
  rw [hsum]
  norm_num

lemma mag_glm_vec2_normalize (v : ℝ × ℝ)
    (h : 0 < v.1 * v.1 + v.2 * v.2) :
    mag (glm_vec2_normalize v) = 1 := by
  have hnorm : 0 < Real.sqrt (v.1 * v.1 + v.2 * v.2) :=
    Real.sqrt_pos.mpr h
  unfold glm_vec2_normalize mag
  rw [if_neg (ne_of_gt hnorm)]
  have hring :
      v.1 / Real.sqrt (v.1 * v.1 + v.2 * v.2) *
        (v.1 / Real.sqrt (v.1 * v.1 + v.2 * v.2)) +
      v.2 / Real.sqrt (v.1 * v.1 + v.2 * v.2) *
        (v.2 / Real.sqrt (v.1 * v.1 + v.2 * v.2)) =
      (v.1 * v.1 + v.2 * v.2) /
        (Real.sqrt (v.1 * v.1 + v.2 * v.2) *
          Real.sqrt (v.1 * v.1 + v.2 * v.2)) := by
    ring
  rw [hring, Real.mul_self_sqrt (le_of_lt h), div_self (ne_of_gt h)]
  exact Real.sqrt_one

lemma initial_directions_nonzero : ∀ i : Fin 5,
    0 < (initial_waves i).direction.1 * (initial_waves i).direction.1 +
        (initial_waves i).direction.2 * (initial_waves i).direction.2 := by
  intro i
  fin_cases i <;> simp [initial_waves] <;> norm_num

/-- Claim C7: wave-direction normalisation is idempotent: for every n >= 2,
after n calls to update_uniform_buffers_gerstner_waves the normalized flag
is set, the wave array is exactly what the first call produced (the
guarded normalise pass never runs again), and every direction vector has
magnitude exactly 1. -/
theorem normalization_idempotent (n : ℕ) (h : 2 ≤ n) :
    (update_uniform_buffers_gerstner_waves^[n] initial_params).normalized
      = true ∧
    (update_uniform_buffers_gerstner_waves^[n] initial_params).waves =
      (update_uniform_buffers_gerstner_waves initial_params).waves ∧
    ∀ i, mag
      (((update_uniform_buffers_gerstner_waves^[n] initial_params).waves
        i).direction) = 1 := by
  have key : ∀ m, 1 ≤ m →
      (update_uniform_buffers_gerstner_waves^[m] initial_params).normalized
        = true ∧
      (update_uniform_buffers_gerstner_waves^[m] initial_params).waves =
        (update_uniform_buffers_gerstner_waves initial_params).waves := by
    intro m hm
    induction m with
    | zero => omega
    | succ m ih =>
      rcases Nat.eq_or_lt_of_le hm with h1 | h1
      · have hm0 : m = 0 := by omega
        subst hm0
        exact ⟨update_normalized initial_params, rfl⟩
      · have hm1 : 1 ≤ m := by omega
        obtain ⟨ihn, ihw⟩ := ih hm1
        rw [Function.iterate_succ_apply']
        exact ⟨update_normalized _, by rw [update_waves_of_normalized _ ihn, ihw]⟩
  obtain ⟨hn, hw⟩ := key n (by omega)
  refine ⟨hn, hw, ?_⟩
  intro i
  rw [hw]
  have hfirst :
      ((update_uniform_buffers_gerstner_waves initial_params).waves
        i).direction =
      glm_vec2_normalize ((initial_waves i).direction) := by
    have hni : initial_params.normalized = false := rfl
    unfold update_uniform_buffers_gerstner_waves
    rw [hni]
    simp
    rfl
  rw [hfirst]
  exact mag_glm_vec2_normalize _ (initial_directions_nonzero i)

/-- Witness for claim C7 at n = 2 calls. -/
theorem normalization_idempotent_witness :
    2 ≤ 2 ∧
    ((update_uniform_buffers_gerstner_waves^[2] initial_params).normalized
      = true ∧
    (update_uniform_buffers_gerstner_waves^[2] initial_params).waves =
      (update_uniform_buffers_gerstner_waves initial_params).waves ∧
    ∀ i, mag
      (((update_uniform_buffers_gerstner_waves^[2] initial_params).waves
        i).direction) = 1) :=
  ⟨by norm_num, normalization_idempotent 2 (by norm_num)⟩

/-- Claim C10: in the Gerstner-waves example, a frame whose pause flag is
set leaves scene_data.elapsed_time unchanged, while the view-projection
matrix and the view position are still recomputed from that frame's mouse
position and surface size, and the whole scene_data block is still
uploaded to the scene uniform buffer that frame; this holds for every
interpretation of the external cglm matrix primitives. -/
theorem paused_frame_scene_update (g : CglmOps) (run_times : ℕ → ℝ)
    (mouses : ℕ → ℝ × ℝ) (pauseds : ℕ → Bool)
    (start_time surface_w surface_h : ℝ) (s0 : SceneData) (t : ℕ)
    (hp : pauseds t = true) :
    (sceneFrames g run_times mouses pauseds start_time surface_w surface_h
        s0 (t + 1)).elapsed_time =
      (sceneFrames g run_times mouses pauseds start_time surface_w surface_h
        s0 t).elapsed_time ∧
    sceneUpload g run_times mouses pauseds start_time surface_w surface_h
        s0 t =
      sceneFrames g run_times mouses pauseds start_time surface_w surface_h
        s0 (t + 1) ∧
    (sceneFrames g run_times mouses pauseds start_time surface_w surface_h
        s0 (t + 1)).view_projection_matrix =
      g.mat4_mul
        (g.perspective (glm_rad 50) (surface_w / surface_h) 0.1 100)
        (create_orbit_view_matrix g 15
          (from_euler (mouses t).2 (mouses t).1 0)) ∧
    (sceneFrames g run_times mouses pauseds start_time surface_w surface_h
        s0 (t + 1)).view_position =
      position_from_view_matrix g
        (create_orbit_view_matrix g 15
          (from_euler (mouses t).2 (mouses t).1 0)) := by
  refine ⟨?_, ?_, ?_, ?_⟩ <;>
    simp [sceneFrames, sceneUpload, update_uniform_buffers_scene, hp]

/-- Witness for claim C10 at a concrete interpretation of the cglm
primitives, constant schedules, and the first frame. -/
theorem paused_frame_scene_update_witness :
    (fun _ : ℕ => true) 0 = true ∧
    ((sceneFrames
        { quat_mat4 := fun _ _ _ => 0, translate := fun m _ => m,
          mat4_inv := fun m => m, perspective := fun _ _ _ _ _ _ => 0,
          mat4_mul := fun _ m => m }
        (fun _ => 0) (fun _ => (0, 0)) (fun _ => true) 0 1 1
        { elapsed_time := 0, model_matrix := fun _ _ => 0,
          view_projection_matrix := fun _ _ => 0,
          view_position := (0, 0, 0) } (0 + 1)).elapsed_time =
      (sceneFrames
        { quat_mat4 := fun _ _ _ => 0, translate := fun m _ => m,
          mat4_inv := fun m => m, perspective := fun _ _ _ _ _ _ => 0,
          mat4_mul := fun _ m => m }
        (fun _ => 0) (fun _ => (0, 0)) (fun _ => true) 0 1 1
        { elapsed_time := 0, model_matrix := fun _ _ => 0,
          view_projection_matrix := fun _ _ => 0,
          view_position := (0, 0, 0) } 0).elapsed_time ∧
    sceneUpload
        { quat_mat4 := fun _ _ _ => 0, translate := fun m _ => m,
          mat4_inv := fun m => m, perspective := fun _ _ _ _ _ _ => 0,
          mat4_mul := fun _ m => m }
        (fun _ => 0) (fun _ => (0, 0)) (fun _ => true) 0 1 1
        { elapsed_time := 0, model_matrix := fun _ _ => 0,
          view_projection_matrix := fun _ _ => 0,
          view_position := (0, 0, 0) } 0 =
      sceneFrames
        { quat_mat4 := fun _ _ _ => 0, translate := fun m _ => m,
          mat4_inv := fun m => m, perspective := fun _ _ _ _ _ _ => 0,
          mat4_mul := fun _ m => m }
        (fun _ => 0) (fun _ => (0, 0)) (fun _ => true) 0 1 1
        { elapsed_time := 0, model_matrix := fun _ _ => 0,
          view_projection_matrix := fun _ _ => 0,
          view_position := (0, 0, 0) } (0 + 1) ∧
    (sceneFrames
        { quat_mat4 := fun _ _ _ => 0, translate := fun m _ => m,
          mat4_inv := fun m => m, perspective := fun _ _ _ _ _ _ => 0,
          mat4_mul := fun _ m => m }
        (fun _ => 0) (fun _ => (0, 0)) (fun _ => true) 0 1 1
        { elapsed_time := 0, model_matrix := fun _ _ => 0,
          view_projection_matrix := fun _ _ => 0,
          view_position := (0, 0, 0) } (0 + 1)).view_projection_matrix =
      CglmOps.mat4_mul
        { quat_mat4 := fun _ _ _ => 0, translate := fun m _ => m,
          mat4_inv := fun m => m, perspective := fun _ _ _ _ _ _ => 0,
          mat4_mul := fun _ m => m }
        (CglmOps.perspective
          { quat_mat4 := fun _ _ _ => 0, translate := fun m _ => m,
            mat4_inv := fun m => m, perspective := fun _ _ _ _ _ _ => 0,
            mat4_mul := fun _ m => m }
          (glm_rad 50) (1 / 1) 0.1 100)
        (create_orbit_view_matrix
          { quat_mat4 := fun _ _ _ => 0, translate := fun m _ => m,
            mat4_inv := fun m => m, perspective := fun _ _ _ _ _ _ => 0,
            mat4_mul := fun _ m => m }
          15 (from_euler ((fun _ : ℕ => ((0 : ℝ), (0 : ℝ))) 0).2
            ((fun _ : ℕ => ((0 : ℝ), (0 : ℝ))) 0).1 0)) ∧
    (sceneFrames
        { quat_mat4 := fun _ _ _ => 0, translate := fun m _ => m,
          mat4_inv := fun m => m, perspective := fun _ _ _ _ _ _ => 0,
          mat4_mul := fun _ m => m }
        (fun _ => 0) (fun _ => (0, 0)) (fun _ => true) 0 1 1
        { elapsed_time := 0, model_matrix := fun _ _ => 0,
          view_projection_matrix := fun _ _ => 0,
          view_position := (0, 0, 0) } (0 + 1)).view_position =
      position_from_view_matrix
        { quat_mat4 := fun _ _ _ => 0, translate := fun m _ => m,
          mat4_inv := fun m => m, perspective := fun _ _ _ _ _ _ => 0,
          mat4_mul := fun _ m => m }
        (create_orbit_view_matrix
          { quat_mat4 := fun _ _ _ => 0, translate := fun m _ => m,
            mat4_inv := fun m => m, perspective := fun _ _ _ _ _ _ => 0,
            mat4_mul := fun _ m => m }
          15 (from_euler ((fun _ : ℕ => ((0 : ℝ), (0 : ℝ))) 0).2
            ((fun _ : ℕ => ((0 : ℝ), (0 : ℝ))) 0).1 0))) :=
  ⟨rfl,
   paused_frame_scene_update
    { quat_mat4 := fun _ _ _ => 0, translate := fun m _ => m,
      mat4_inv := fun m => m, perspective := fun _ _ _ _ _ _ => 0,
      mat4_mul := fun _ m => m }
    (fun _ => 0) (fun _ => (0, 0)) (fun _ => true) 0 1 1
    { elapsed_time := 0, model_matrix := fun _ _ => 0,
      view_projection_matrix := fun _ _ => 0,
      view_position := (0, 0, 0) } 0 rfl⟩

end GerstnerWaves
